import Mathlib

/-!
Verification of the ranking core of `src/app.py` (Lowe's semantic search).

Embedding conventions:
* Python floats are modelled by exact rationals (`ℚ`).  The square root used
  inside sklearn's row normalisation is not exactly representable on `ℚ`, so it
  is passed in as an abstract parameter `sqrt : ℚ → ℚ`; every theorem holds for
  an arbitrary such function (witnesses instantiate it with `id`).
* `model.encode([query])[0]` is modelled by an abstract embedding function
  `model : String → List ℚ` applied to the query.
* `sklearn.metrics.pairwise.cosine_similarity(X, Y)` normalises each row by its
  Euclidean norm, replacing zero norms by `1` before dividing (that is the
  library's division-by-zero guard), then takes dot products.  `cosineSim`
  below reproduces that computation shape.
* `np.argsort` (line 171) is modelled as a stable ascending argsort: indices
  ordered by value, ties by original index, via Mathlib's `List.insertionSort`
  over (index, value) pairs under the lexicographic order `lexLE`.  This model
  agrees with NumPy exactly on arrays shorter than 16 elements, where NumPy's
  default introsort runs a stable insertion sort (the corpus here has 9
  documents); on longer arrays NumPy's quicksort partitioning leaves the
  relative order of equal values unspecified, so the model then only agrees up
  to tie order.  Consequently every theorem about anything beyond the
  value-sorted multiset — i.e. about the order of TIED entries — carries an
  explicit `length < 16` hypothesis; theorems without that hypothesis depend
  only on properties (a value-ascending permutation of the indices) that
  NumPy's argsort guarantees at every length.
* Python's `str.strip()` (line 181) is modelled by `pyStrip`, dropping the
  ASCII whitespace characters space, tab, newline, carriage return, vertical
  tab and form feed from both ends (the corpus text is ASCII).
-/

namespace App

/-- One entry of `SAMPLE_DOCUMENTS`: a dict with keys `title`, `url`, `content`. -/
structure Document where
  title : String
  url : String
  content : String

deriving instance DecidableEq, Repr for Document

/-- One result record built by `search` (src/app.py lines 176-182). -/
structure SearchResult where
  rank : Nat
  title : String
  url : String
  similarity_score : ℚ
  content : String

deriving instance DecidableEq, Repr for SearchResult

/-- Default used to totalise Python's `documents[idx]` lookup; `idx` is always
in range when the embeddings match the documents. -/
def emptyDoc : Document := ⟨"", "", ""⟩

/-- Default used to totalise positional lookups in a result list. -/
def emptyResult : SearchResult := ⟨0, "", "", 0, ""⟩

/-- Whitespace set of Python's `str.strip()` (ASCII part). -/
def isPySpace (c : Char) : Bool :=
  c = ' ' || c = '\t' || c = '\n' || c = '\r' || c = Char.ofNat 11 || c = Char.ofNat 12

/-- Python's `str.strip()`: remove leading and trailing whitespace. -/
def pyStrip (s : String) : String :=
  String.mk (((s.data.dropWhile isPySpace).reverse.dropWhile isPySpace).reverse)

/-- Sum of squares of a vector's entries (the square of its Euclidean norm). -/
def sumSq (v : List ℚ) : ℚ := (v.map (fun x => x * x)).sum

/-- Dot product of two vectors. -/
def dotQ : List ℚ → List ℚ → ℚ
  | [], _ => 0
  | _, [] => 0
  | a :: as, b :: bs => a * b + dotQ as bs

/-- Denominator used by sklearn's row normalisation: the Euclidean norm, with
zero norms replaced by `1` (sklearn's guard against division by zero). -/
def normDen (sqrt : ℚ → ℚ) (v : List ℚ) : ℚ :=
  let n := sqrt (sumSq v)
  if n = 0 then 1 else n

/-- Row normalisation as performed inside `cosine_similarity`. -/
def normalizeRow (sqrt : ℚ → ℚ) (v : List ℚ) : List ℚ :=
  v.map (fun x => x / normDen sqrt v)

/-- Cosine similarity of one query row against one document row, as computed by
`sklearn.metrics.pairwise.cosine_similarity` (normalise both rows, then dot). -/
def cosineSim (sqrt : ℚ → ℚ) (q d : List ℚ) : ℚ :=
  dotQ (normalizeRow sqrt q) (normalizeRow sqrt d)

/-- Order on (index, value) pairs: by value ascending, ties by index ascending.
Sorting `enum` by this order is exactly a stable ascending argsort. -/
def lexLE (p q : Nat × ℚ) : Prop :=
  p.2 < q.2 ∨ (p.2 = q.2 ∧ p.1 ≤ q.1)

instance : DecidableRel lexLE := fun p q => by
  unfold lexLE
  infer_instance

instance : IsTotal (Nat × ℚ) lexLE := by
  constructor
  intro a b
  rcases lt_trichotomy a.2 b.2 with h | h | h
  · exact Or.inl (Or.inl h)
  · rcases Nat.le_total a.1 b.1 with h2 | h2
    · exact Or.inl (Or.inr ⟨h, h2⟩)
    · exact Or.inr (Or.inr ⟨h.symm, h2⟩)
  · exact Or.inr (Or.inl h)

instance : IsTrans (Nat × ℚ) lexLE := by
  constructor
  rintro a b c (h1 | ⟨e1, i1⟩) (h2 | ⟨e2, i2⟩)
  · exact Or.inl (lt_trans h1 h2)
  · exact Or.inl (lt_of_lt_of_le h1 (le_of_eq e2))
  · exact Or.inl (lt_of_le_of_lt (le_of_eq e1) h2)
  · exact Or.inr ⟨e1.trans e2, le_trans i1 i2⟩

/-- The similarity array paired with its indices and stably sorted ascending.
`argsort` reads the indices off this list.  Exact for `xs.length < 16`
(NumPy's insertion-sort regime); for longer arrays NumPy's introsort agrees
with this list only up to the order of tied values, so facts that depend on
tie order must assume `xs.length < 16`. -/
def sortedEnum (xs : List ℚ) : List (Nat × ℚ) :=
  List.insertionSort lexLE xs.enum

/-- Model of `np.argsort(similarities)` (src/app.py line 171): the list of
indices of `xs` ordered by value ascending, ties in original order.  The tie
order is NumPy's only for `xs.length < 16`; see `sortedEnum`. -/
def argsort (xs : List ℚ) : List Nat :=
  (sortedEnum xs).map Prod.fst

/-- Model of line 168: the row of cosine similarities of the query embedding
against every document embedding. -/
def similarities (model : String → List ℚ) (sqrt : ℚ → ℚ) (query : String)
    (doc_embeddings : List (List ℚ)) : List ℚ :=
  doc_embeddings.map (fun d => cosineSim sqrt (model query) d)

/-- Model of line 171, `np.argsort(similarities)[::-1][:top_k]`. -/
def top_indices (sims : List ℚ) (top_k : Nat) : List Nat :=
  ((argsort sims).reverse).take top_k

/-- Model of the result-building loop, lines 174-182: for the `pos`-th selected
index `idx`, emit the record with `rank = pos + 1` and title, url, score and
stripped content all read at `idx`. -/
def buildResults (documents : List Document) (sims : List ℚ) (idxs : List Nat) :
    List SearchResult :=
  idxs.enum.map (fun pi =>
    { rank := pi.1 + 1
      title := (documents.getD pi.2 emptyDoc).title
      url := (documents.getD pi.2 emptyDoc).url
      similarity_score := sims.getD pi.2 0
      content := pyStrip (documents.getD pi.2 emptyDoc).content })

/-- Model of `search(query, documents, doc_embeddings, model, top_k)`
(src/app.py lines 150-184). -/
def search (model : String → List ℚ) (sqrt : ℚ → ℚ) (query : String)
    (documents : List Document) (doc_embeddings : List (List ℚ)) (top_k : Nat) :
    List SearchResult :=
  buildResults documents (similarities model sqrt query doc_embeddings)
    (top_indices (similarities model sqrt query doc_embeddings) top_k)

/-- The mutable state visible to `search`: the documents list and the
precomputed embedding array, both passed to it by reference. -/
structure SearchState where
  documents : List Document
  doc_embeddings : List (List ℚ)

/-- State-passing form of `search`.  The Python body only ever reads
`documents` and `doc_embeddings` (indexing; `strip()` returns a fresh string;
the NumPy and sklearn calls allocate new arrays), so the translation threads
the state through unchanged. -/
def searchSt (model : String → List ℚ) (sqrt : ℚ → ℚ) (st : SearchState)
    (query : String) (top_k : Nat) : List SearchResult × SearchState :=
  (search model sqrt query st.documents st.doc_embeddings top_k, st)

end App

namespace App

/-! ### Basic facts about the embedded operations -/

lemma length_sortedEnum (xs : List ℚ) : (sortedEnum xs).length = xs.length := by
  simp [sortedEnum, List.length_insertionSort, List.enum_length]

lemma sorted_sortedEnum (xs : List ℚ) : List.Sorted lexLE (sortedEnum xs) :=
  List.sorted_insertionSort lexLE xs.enum

lemma mem_sortedEnum {p : Nat × ℚ} {xs : List ℚ} : p ∈ sortedEnum xs ↔ p ∈ xs.enum :=
  List.mem_insertionSort lexLE

lemma getD_of_mem_enum {xs : List ℚ} {p : Nat × ℚ} (hp : p ∈ xs.enum) :
    xs.getD p.1 0 = p.2 := by
  have h := List.mem_enum_iff_getElem?.mp hp
  simp [List.getD_eq_getElem?_getD, h]

lemma fst_lt_of_mem_enum {xs : List ℚ} {p : Nat × ℚ} (hp : p ∈ xs.enum) :
    p.1 < xs.length := by
  have h := List.mem_enum_iff_getElem?.mp hp
  exact (List.getElem?_eq_some.mp h).1

lemma length_argsort (xs : List ℚ) : (argsort xs).length = xs.length := by
  simp [argsort, length_sortedEnum]

lemma argsort_perm_range (xs : List ℚ) : (argsort xs).Perm (List.range xs.length) := by
  have h := (List.perm_insertionSort lexLE xs.enum).map Prod.fst
  simpa [argsort, sortedEnum, List.enum_map_fst] using h

lemma length_top_indices (sims : List ℚ) (k : Nat) :
    (top_indices sims k).length = min k sims.length := by
  simp [top_indices, List.length_take, List.length_reverse, length_argsort]

lemma mem_argsort {xs : List ℚ} {i : Nat} : i ∈ argsort xs ↔ i < xs.length := by
  rw [(argsort_perm_range xs).mem_iff, List.mem_range]

lemma lt_of_mem_top_indices {sims : List ℚ} {k i : Nat} (h : i ∈ top_indices sims k) :
    i < sims.length := by
  unfold top_indices at h
  have h2 : i ∈ (argsort sims).reverse := (List.take_sublist _ _).subset h
  exact mem_argsort.mp (List.mem_reverse.mp h2)

lemma length_buildResults (documents : List Document) (sims : List ℚ) (idxs : List Nat) :
    (buildResults documents sims idxs).length = idxs.length := by
  simp [buildResults, List.enum_length]

lemma buildResults_getD (documents : List Document) (sims : List ℚ) (idxs : List Nat)
    (pos : Nat) (h : pos < idxs.length) :
    (buildResults documents sims idxs).getD pos emptyResult =
      { rank := pos + 1
        title := (documents.getD (idxs.getD pos 0) emptyDoc).title
        url := (documents.getD (idxs.getD pos 0) emptyDoc).url
        similarity_score := sims.getD (idxs.getD pos 0) 0
        content := pyStrip (documents.getD (idxs.getD pos 0) emptyDoc).content } := by
  have hb : pos < (buildResults documents sims idxs).length := by
    rw [length_buildResults]; exact h
  rw [List.getD_eq_getElem _ _ hb, List.getD_eq_getElem _ _ h]
  simp [buildResults, List.getElem_map, List.getElem_enum]

lemma search_length_eq (model : String → List ℚ) (sqrt : ℚ → ℚ) (query : String)
    (documents : List Document) (doc_embeddings : List (List ℚ)) (top_k : Nat) :
    (search model sqrt query documents doc_embeddings top_k).length =
      min top_k doc_embeddings.length := by
  simp [search, length_buildResults, length_top_indices, similarities]

/-- The selected indices, read in output order and repaired with their scores,
are pairwise non-ascending in the lexicographic order: this packages both rank
monotonicity and the (reversed) deterministic tie order. -/
lemma pairwise_top_lex (sims : List ℚ) (k : Nat) :
    List.Pairwise (fun a b => lexLE (b, sims.getD b 0) (a, sims.getD a 0))
      (top_indices sims k) := by
  have P1 : List.Pairwise lexLE (sortedEnum sims) := sorted_sortedEnum sims
  have P3 : List.Pairwise
      (fun p q : Nat × ℚ => lexLE (p.1, sims.getD p.1 0) (q.1, sims.getD q.1 0))
      (sortedEnum sims) := by
    refine P1.imp_of_mem ?_
    intro p q hp hq hpq
    have hp2 : sims.getD p.1 0 = p.2 := getD_of_mem_enum (mem_sortedEnum.mp hp)
    have hq2 : sims.getD q.1 0 = q.2 := getD_of_mem_enum (mem_sortedEnum.mp hq)
    rw [hp2, hq2]
    exact hpq
  have P4 : List.Pairwise
      (fun a b : Nat => lexLE (a, sims.getD a 0) (b, sims.getD b 0))
      ((sortedEnum sims).map Prod.fst) := List.pairwise_map.mpr P3
  have P5 : List.Pairwise
      (fun a b : Nat => lexLE (b, sims.getD b 0) (a, sims.getD a 0))
      (((sortedEnum sims).map Prod.fst).reverse) := List.pairwise_reverse.mpr P4
  exact List.Pairwise.sublist (List.take_sublist _ _) P5

end App

namespace App

/-! ### Claim theorems -/

lemma nodup_top_indices (sims : List ℚ) (k : Nat) : (top_indices sims k).Nodup := by
  have h1 : (argsort sims).Nodup :=
    (argsort_perm_range sims).nodup_iff.mpr (List.nodup_range _)
  have h2 := List.nodup_reverse.mpr h1
  exact List.Nodup.sublist (List.take_sublist _ _) h2

/-- C2: for every query, corpus of `n` documents with matching embeddings and
requested count `k ≥ 1`, `search` returns exactly `min k n` results; in
particular `k` beyond the corpus size returns all `n` documents, no error. -/
theorem search_returns_min_k_n (model : String → List ℚ) (sqrt : ℚ → ℚ) (query : String)
    (documents : List Document) (doc_embeddings : List (List ℚ)) (top_k : Nat)
    (hlen : doc_embeddings.length = documents.length) (hk : 1 ≤ top_k) :
    (search model sqrt query documents doc_embeddings top_k).length =
      min top_k documents.length := by
  rw [search_length_eq, hlen]

/-- C3: the result list is ordered by non-increasing similarity score: for
positions `i < j` in the returned list, the score at `j` is at most the score
at `i`. -/
theorem search_scores_nonincreasing (model : String → List ℚ) (sqrt : ℚ → ℚ) (query : String)
    (documents : List Document) (doc_embeddings : List (List ℚ)) (top_k i j : Nat)
    (hij : i < j)
    (hj : j < (search model sqrt query documents doc_embeddings top_k).length) :
    ((search model sqrt query documents doc_embeddings top_k).getD j emptyResult).similarity_score ≤
      ((search model sqrt query documents doc_embeddings top_k).getD i emptyResult).similarity_score := by
  have hlen2 : (search model sqrt query documents doc_embeddings top_k).length =
      (top_indices (similarities model sqrt query doc_embeddings) top_k).length := by
    rw [search_length_eq, length_top_indices]
    simp [similarities]
  have hjT : j < (top_indices (similarities model sqrt query doc_embeddings) top_k).length :=
    hlen2 ▸ hj
  have hiT : i < (top_indices (similarities model sqrt query doc_embeddings) top_k).length :=
    lt_trans hij hjT
  have e : search model sqrt query documents doc_embeddings top_k =
      buildResults documents (similarities model sqrt query doc_embeddings)
        (top_indices (similarities model sqrt query doc_embeddings) top_k) := rfl
  rw [e, buildResults_getD _ _ _ _ hjT, buildResults_getD _ _ _ _ hiT]
  have P := pairwise_top_lex (similarities model sqrt query doc_embeddings) top_k
  rw [List.pairwise_iff_getElem] at P
  have hP := P i j hiT hjT hij
  simp only [lexLE] at hP
  rw [List.getD_eq_getElem _ _ hjT, List.getD_eq_getElem _ _ hiT]
  rcases hP with h | h
  · exact le_of_lt h
  · exact le_of_eq h.1

/-- C4: `search` is deterministic: with a fixed corpus, fixed embeddings and an
embedding model that returns the same vector for the query, two calls with the
same query and `k` produce identical result lists, scores included. -/
theorem search_deterministic (m1 m2 : String → List ℚ) (sqrt : ℚ → ℚ) (query : String)
    (documents : List Document) (doc_embeddings : List (List ℚ)) (top_k : Nat)
    (h : m1 query = m2 query) :
    search m1 sqrt query documents doc_embeddings top_k =
      search m2 sqrt query documents doc_embeddings top_k := by
  simp only [search, similarities, h]

/-- C6 amended: `search` with `k = 0` does not fail; it returns the empty
result list (`[:0]` truncation), for every query and corpus. -/
theorem search_k_zero_empty (model : String → List ℚ) (sqrt : ℚ → ℚ) (query : String)
    (documents : List Document) (doc_embeddings : List (List ℚ)) :
    search model sqrt query documents doc_embeddings 0 = [] := rfl

lemma dotQ_eq_zero_of_right_zero : ∀ (as bs : List ℚ), (∀ x ∈ bs, x = 0) → dotQ as bs = 0
  | [], _, _ => by simp [dotQ]
  | _ :: _, [], _ => by simp [dotQ]
  | a :: as, b :: bs, h => by
    have hb : b = 0 := h b (List.mem_cons_self _ _)
    have ih := dotQ_eq_zero_of_right_zero as bs (fun x hx => h x (List.mem_cons_of_mem _ hx))
    simp [dotQ, hb, ih]

/-- C8: a document whose embedding is the zero vector scores exactly `0`
against every query vector (including a zero query vector), and the
normalisation denominators are never zero, so no division by zero occurs. -/
theorem zero_vector_scores_zero (sqrt : ℚ → ℚ) (q d : List ℚ) (hd : ∀ x ∈ d, x = 0) :
    cosineSim sqrt q d = 0 ∧ normDen sqrt d ≠ 0 ∧ normDen sqrt q ≠ 0 := by
  refine ⟨?_, ?_, ?_⟩
  · unfold cosineSim normalizeRow
    apply dotQ_eq_zero_of_right_zero
    intro x hx
    rcases List.mem_map.mp hx with ⟨y, hy, rfl⟩
    rw [hd y hy, zero_div]
  · simp only [normDen]
    split
    · exact one_ne_zero
    · assumption
  · simp only [normDen]
    split
    · exact one_ne_zero
    · assumption

/-- C9: `search` does not modify its inputs: in the state-passing translation,
the documents list and the embedding array after the call are the ones passed
in (the body only reads them). -/
theorem search_leaves_corpus_unchanged (model : String → List ℚ) (sqrt : ℚ → ℚ)
    (st : SearchState) (query : String) (top_k : Nat) :
    (searchSt model sqrt st query top_k).2.documents = st.documents ∧
    (searchSt model sqrt st query top_k).2.doc_embeddings = st.doc_embeddings :=
  ⟨rfl, rfl⟩

/-- C1 amended: the claimed tie-break rule fails, and on corpora of fewer than
16 documents — where `np.argsort` runs its stable insertion sort, so the
embedding is exact — the returned order REVERSES the original corpus order
among ties: the stable ascending argsort keeps `i` before `j`, and the
`[::-1]` reversal then puts the later corpus index first.  So for `i < j` with
bit-for-bit equal scores, wherever both appear among the selected indices,
`j`'s position precedes `i`'s.  (For 16 or more candidates NumPy's introsort
leaves tie order unspecified, hence the `hsmall` bound.) -/
theorem equal_scores_reverse_order (model : String → List ℚ) (sqrt : ℚ → ℚ) (query : String)
    (doc_embeddings : List (List ℚ)) (top_k i j pi pj : Nat)
    (hsmall : doc_embeddings.length < 16)
    (hij : i < j)
    (hscore : (similarities model sqrt query doc_embeddings).getD i 0 =
      (similarities model sqrt query doc_embeddings).getD j 0)
    (hpi : pi < (top_indices (similarities model sqrt query doc_embeddings) top_k).length)
    (hpj : pj < (top_indices (similarities model sqrt query doc_embeddings) top_k).length)
    (hgi : (top_indices (similarities model sqrt query doc_embeddings) top_k).getD pi 0 = i)
    (hgj : (top_indices (similarities model sqrt query doc_embeddings) top_k).getD pj 0 = j) :
    pj < pi := by
  have P := pairwise_top_lex (similarities model sqrt query doc_embeddings) top_k
  rw [List.pairwise_iff_getElem] at P
  rw [List.getD_eq_getElem _ _ hpi] at hgi
  rw [List.getD_eq_getElem _ _ hpj] at hgj
  rcases Nat.lt_trichotomy pi pj with hlt | heq | hgt
  · exfalso
    have hP := P pi pj hpi hpj hlt
    rw [hgi, hgj] at hP
    simp only [lexLE] at hP
    rcases hP with h | h
    · rw [hscore] at h
      exact lt_irrefl _ h
    · omega
  · exfalso
    subst heq
    have hij2 : i = j := by
      rw [← hgi, ← hgj]
    omega
  · exact hgt

/-- C5 amended: `search` performs no query validation: invoked with the empty
query string, it does not fail but returns the usual `min k n` results scored
against the embedding of `""` (in the app, `main` merely skips calling
`search` and shows a warning when the query box is empty). -/
theorem empty_query_returns_results (model : String → List ℚ) (sqrt : ℚ → ℚ)
    (documents : List Document) (doc_embeddings : List (List ℚ)) (top_k : Nat)
    (hlen : doc_embeddings.length = documents.length) :
    (search model sqrt "" documents doc_embeddings top_k).length =
      min top_k documents.length := by
  rw [search_length_eq, hlen]

/-- C7 amended: each returned record's `content` is the matching document's
FULL body with surrounding whitespace stripped; no length truncation or
snippet extraction is applied. -/
theorem search_content_is_stripped_body (model : String → List ℚ) (sqrt : ℚ → ℚ)
    (query : String) (documents : List Document) (doc_embeddings : List (List ℚ))
    (top_k : Nat) (r : SearchResult)
    (hlen : doc_embeddings.length = documents.length)
    (hr : r ∈ search model sqrt query documents doc_embeddings top_k) :
    ∃ d, d ∈ documents ∧ r.content = pyStrip d.content := by
  simp only [search, buildResults] at hr
  rcases List.mem_map.mp hr with ⟨pi, hpi, rfl⟩
  have hidx : pi.2 ∈ top_indices (similarities model sqrt query doc_embeddings) top_k :=
    List.getElem?_mem (List.mem_enum_iff_getElem?.mp hpi)
  have h2 : pi.2 < documents.length := by
    have h3 := lt_of_mem_top_indices hidx
    simp only [similarities, List.length_map] at h3
    rw [hlen] at h3
    exact h3
  refine ⟨documents.getD pi.2 emptyDoc, ?_, rfl⟩
  rw [List.getD_eq_getElem _ _ h2]
  exact List.getElem_mem _

/-- C10: the selected indices are pairwise distinct (each corpus document
appears at most once), and each record is internally consistent: title, url,
similarity score and content all read at one corpus index `idx`, with `rank`
equal to its 1-based position. -/
theorem search_results_consistent (model : String → List ℚ) (sqrt : ℚ → ℚ) (query : String)
    (documents : List Document) (doc_embeddings : List (List ℚ)) (top_k pos : Nat)
    (hlen : doc_embeddings.length = documents.length)
    (hpos : pos < (search model sqrt query documents doc_embeddings top_k).length) :
    (top_indices (similarities model sqrt query doc_embeddings) top_k).Nodup ∧
    ∃ idx, idx < documents.length ∧
      (search model sqrt query documents doc_embeddings top_k).getD pos emptyResult =
        { rank := pos + 1
          title := (documents.getD idx emptyDoc).title
          url := (documents.getD idx emptyDoc).url
          similarity_score := (similarities model sqrt query doc_embeddings).getD idx 0
          content := pyStrip (documents.getD idx emptyDoc).content } := by
  constructor
  · exact nodup_top_indices _ _
  · have hs : (similarities model sqrt query doc_embeddings).length = doc_embeddings.length := by
      simp [similarities]
    have hposT : pos < (top_indices (similarities model sqrt query doc_embeddings) top_k).length := by
      rw [length_top_indices, hs]
      rw [search_length_eq] at hpos
      exact hpos
    refine ⟨(top_indices (similarities model sqrt query doc_embeddings) top_k).getD pos 0, ?_, ?_⟩
    · have hmem : (top_indices (similarities model sqrt query doc_embeddings) top_k).getD pos 0 ∈
          top_indices (similarities model sqrt query doc_embeddings) top_k := by
        rw [List.getD_eq_getElem _ _ hposT]
        exact List.getElem_mem _
      have h3 := lt_of_mem_top_indices hmem
      rw [hs, hlen] at h3
      exact h3
    · exact buildResults_getD documents (similarities model sqrt query doc_embeddings)
        (top_indices (similarities model sqrt query doc_embeddings) top_k) pos hposT

end App

namespace App

/-! ### Concrete fixtures for counterexamples and witnesses -/

/-- Concrete two-document corpus used in counterexamples and witnesses. -/
def docA : Document := ⟨"Doc A", "urlA", "alpha"⟩

/-- Second document of the concrete corpus. -/
def docB : Document := ⟨"Doc B", "urlB", "beta"⟩

/-- A deterministic embedding model mapping every text to `[1, 0]`. -/
def constModel : String → List ℚ := fun _ => [1, 0]

/-- Document with a 600-character body containing no whitespace. -/
def longDoc : Document := ⟨"Long", "urlL", String.mk (List.replicate 600 'a')⟩

/-! ### Counterexamples -/

/-- C1 counterexample: two documents score bit-for-bit equal (both `1`), yet
`search` returns document index 1 before document index 0 — the `[::-1]`
reversal of the stable ascending argsort flips the original tie order, so the
claimed preservation of corpus order fails. -/
theorem tie_preserves_order_counterexample :
    similarities constModel id "q" [[1, 0], [1, 0]] = [1, 1] ∧
    top_indices (similarities constModel id "q" [[1, 0], [1, 0]]) 2 = [1, 0] ∧
    (search constModel id "q" [docA, docB] [[1, 0], [1, 0]] 2).map SearchResult.title =
      ["Doc B", "Doc A"] := by
  refine ⟨?_, ?_, ?_⟩ <;>
    norm_num [search, similarities, cosineSim, normalizeRow, normDen, sumSq, dotQ,
      constModel, top_indices, argsort, sortedEnum, lexLE, List.insertionSort,
      List.orderedInsert, buildResults, List.enum, List.enumFrom, List.getD, docA, docB]

/-- C5 counterexample: called with the empty query string, `search` does not
fail with any `EmptyQuery` condition — it returns a full two-element result
list for this two-document corpus. -/
theorem empty_query_counterexample :
    (search constModel id "" [docA, docB] [[1, 0], [1, 0]] 2).length = 2 := by
  rw [search_length_eq]
  decide

/-- C6 counterexample: called with `k = 0`, `search` does not fail with any
`InvalidArgument` condition — it returns the empty result list. -/
theorem k_zero_counterexample :
    search constModel id "q" [docA, docB] [[1, 0], [1, 0]] 0 = [] := rfl

set_option maxRecDepth 4000 in
/-- C7 counterexample: a document whose body has 600 characters (beyond any
500-character budget) comes back with its content 600 characters long and
equal to the full body — no truncation to a bounded snippet happens. -/
theorem snippet_truncation_counterexample :
    (search constModel id "q" [longDoc] [[1, 0]] 1).map (fun r => r.content.length) = [600] ∧
    (search constModel id "q" [longDoc] [[1, 0]] 1).map (fun r => r.content) =
      [longDoc.content] := by
  constructor <;> decide

end App

namespace App

/-! ### Witnesses: each applies its claim theorem at a concrete input -/

/-- Witness for C1's amended theorem at the tied two-document fixture: document
0 sits at output position 1 and document 1 at output position 0. -/
theorem equal_scores_reverse_order_witness : (0 : Nat) < 1 :=
  equal_scores_reverse_order constModel id "q" [[1, 0], [1, 0]] 2 0 1 1 0
    (by norm_num)
    (by norm_num)
    (by norm_num [similarities, cosineSim, normalizeRow, normDen, sumSq, dotQ,
      constModel, List.getD])
    (by rw [length_top_indices]; norm_num [similarities])
    (by rw [length_top_indices]; norm_num [similarities])
    (by norm_num [top_indices, argsort, sortedEnum, lexLE, List.insertionSort,
      List.orderedInsert, similarities, cosineSim, normalizeRow, normDen, sumSq,
      dotQ, constModel, List.enum, List.enumFrom, List.getD])
    (by norm_num [top_indices, argsort, sortedEnum, lexLE, List.insertionSort,
      List.orderedInsert, similarities, cosineSim, normalizeRow, normDen, sumSq,
      dotQ, constModel, List.enum, List.enumFrom, List.getD])

/-- Witness for C2 at a concrete corpus: `k = 5` on 2 documents yields
`min 5 2` results. -/
theorem search_returns_min_k_n_witness :
    (search constModel id "q" [docA, docB] [[1, 0], [1, 0]] 5).length =
      min 5 [docA, docB].length :=
  search_returns_min_k_n constModel id "q" [docA, docB] [[1, 0], [1, 0]] 5 rfl
    (by norm_num)

/-- Witness for C3 at a concrete two-result search. -/
theorem search_scores_nonincreasing_witness :
    ((search constModel id "q" [docA, docB] [[1, 0], [1, 0]] 2).getD 1
        emptyResult).similarity_score ≤
      ((search constModel id "q" [docA, docB] [[1, 0], [1, 0]] 2).getD 0
        emptyResult).similarity_score :=
  search_scores_nonincreasing constModel id "q" [docA, docB] [[1, 0], [1, 0]] 2 0 1
    (by norm_num) (by rw [search_length_eq]; norm_num)

/-- Witness for C4 at a concrete input (same model on both sides). -/
theorem search_deterministic_witness :
    search constModel id "q" [docA] [[1, 0]] 1 = search constModel id "q" [docA] [[1, 0]] 1 :=
  search_deterministic constModel constModel id "q" [docA] [[1, 0]] 1 rfl

/-- Witness for C5's amended theorem: the empty query still yields
`min 3 2` results on the two-document corpus. -/
theorem empty_query_returns_results_witness :
    (search constModel id "" [docA, docB] [[1, 0], [1, 0]] 3).length =
      min 3 [docA, docB].length :=
  empty_query_returns_results constModel id [docA, docB] [[1, 0], [1, 0]] 3 rfl

/-- Witness for C7's amended theorem at the first returned record of the
concrete search. -/
theorem search_content_is_stripped_body_witness :
    ∃ d, d ∈ [docA, docB] ∧
      (SearchResult.mk 1 "Doc B" "urlB" 1 (pyStrip "beta")).content = pyStrip d.content :=
  search_content_is_stripped_body constModel id "q" [docA, docB] [[1, 0], [1, 0]] 2
    ⟨1, "Doc B", "urlB", 1, pyStrip "beta"⟩ rfl
    (by norm_num [search, similarities, cosineSim, normalizeRow, normDen, sumSq,
      dotQ, constModel, top_indices, argsort, sortedEnum, lexLE,
      List.insertionSort, List.orderedInsert, buildResults, List.enum,
      List.enumFrom, List.getD, docA, docB])

/-- Witness for C8 with a zero document vector and a zero query vector. -/
theorem zero_vector_scores_zero_witness :
    cosineSim id [0, 0] [0, 0] = 0 ∧ normDen id ([0, 0] : List ℚ) ≠ 0 ∧
      normDen id ([0, 0] : List ℚ) ≠ 0 :=
  zero_vector_scores_zero id [0, 0] [0, 0] (by decide)

/-- Witness for C10 at position 0 of the concrete two-document search. -/
theorem search_results_consistent_witness :
    (top_indices (similarities constModel id "q" [[1, 0], [1, 0]]) 2).Nodup ∧
    ∃ idx, idx < [docA, docB].length ∧
      (search constModel id "q" [docA, docB] [[1, 0], [1, 0]] 2).getD 0 emptyResult =
        { rank := 0 + 1
          title := ([docA, docB].getD idx emptyDoc).title
          url := ([docA, docB].getD idx emptyDoc).url
          similarity_score := (similarities constModel id "q" [[1, 0], [1, 0]]).getD idx 0
          content := pyStrip (([docA, docB].getD idx emptyDoc).content) } :=
  search_results_consistent constModel id "q" [docA, docB] [[1, 0], [1, 0]] 2 0 rfl
    (by rw [search_length_eq]; norm_num)

end App
